import Mathlib

/-!
# Shallow embedding of `src/server.js` (api-testing-tool-backend)

The source file contains two Express server variants:
* the *main* variant (lines 1-586): proxy endpoint, dual-mode storage
  (Supabase when configured, otherwise three in-memory arrays
  `memoryHistory`, `memoryCollections`, `memoryCollectionRequests`);
* the *simplified* variant (lines 587-841): in-memory only, with
  collection requests nested inside each collection object.

We embed the in-memory (ephemeral) branches of every handler as pure
Lean functions over explicit state.  Environment-supplied values
(`Date.now().toString()` identifiers, `new Date().toISOString()`
timestamps, the outcome of `fetch`, the result of `new URL(url)`)
are passed in as explicit parameters.  JavaScript truthiness on the
optional string/JSON fields is modelled explicitly.
-/

/-- A JSON value, as produced by `express.json()` body parsing.
Numbers are modelled as integers (no claim depends on fractional
values). -/
inductive JsonVal where
  | null : JsonVal
  | bool (b : Bool) : JsonVal
  | num (n : Int) : JsonVal
  | str (s : String) : JsonVal
  | arr (elems : List JsonVal) : JsonVal
  | obj (fields : List (String × JsonVal)) : JsonVal

/-- JavaScript truthiness of a JSON value: `null`, `false`, `0` and
`""` are falsy; arrays and objects are always truthy. -/
def jsTruthy : JsonVal → Bool
  | .null => false
  | .bool b => b
  | .num n => n != 0
  | .str s => s != ""
  | .arr _ => true
  | .obj _ => true

/-- Truthiness of an optional JSON value (`undefined` is falsy). -/
def jsTruthyOpt : Option JsonVal → Bool
  | none => false
  | some v => jsTruthy v

/-- Truthiness of an optional string (`undefined` and `""` are falsy). -/
def strTruthy : Option String → Bool
  | none => false
  | some s => s != ""

/-- `x || d` on an optional string: the default is taken when `x` is
absent or the empty string (e.g. `user_id || 'anonymous'`,
`method || 'GET'`). -/
def jsOrStr (x : Option String) (d : String) : String :=
  match x with
  | none => d
  | some s => if s = "" then d else s

/-- Template-literal rendering of a possibly-undefined string
(`` `${method}` `` renders `undefined` as the string "undefined"). -/
def jsToStr (x : Option String) : String :=
  match x with
  | none => "undefined"
  | some s => s

/-- Minimal JSON serialization (`JSON.stringify`) of a `JsonVal`:
strings are quoted with backslash escaping of quote and backslash.
Claims only depend on this being some fixed serialization. -/
def jsonEscape (s : String) : String :=
  String.mk (s.toList.flatMap fun c =>
    if c = '"' ∨ c = '\\' then ['\\', c] else [c])

mutual
def stringify : JsonVal → String
  | .null => "null"
  | .bool b => if b then "true" else "false"
  | .num n => toString n
  | .str s => "\"" ++ jsonEscape s ++ "\""
  | .arr elems => "[" ++ stringifyList elems ++ "]"
  | .obj fields => "\x7b" ++ stringifyFields fields ++ "\x7d"

def stringifyList : List JsonVal → String
  | [] => ""
  | [v] => stringify v
  | v :: rest => stringify v ++ "," ++ stringifyList rest

def stringifyFields : List (String × JsonVal) → String
  | [] => ""
  | [(k, v)] => "\"" ++ jsonEscape k ++ "\":" ++ stringify v
  | (k, v) :: rest =>
      "\"" ++ jsonEscape k ++ "\":" ++ stringify v ++ "," ++ stringifyFields rest
end

/-- The character class removed by JavaScript `String.prototype.trim`:
the ECMAScript WhiteSpace productions (TAB, VT, FF, SP, NBSP, ZWNBSP
and the Unicode Space_Separator code points) plus the LineTerminators
(LF, CR, U+2028, U+2029). -/
def jsWhitespaceChar (c : Char) : Bool :=
  c = ' ' || c = '\t' || c = '\n' || c = '\r' ||
  c.val = 11 || c.val = 12 ||
  c.val = 0xA0 || c.val = 0xFEFF ||
  (0x2000 ≤ c.val && c.val ≤ 0x200A) ||
  c.val = 0x2028 || c.val = 0x2029 || c.val = 0x202F ||
  c.val = 0x205F || c.val = 0x3000 || c.val = 0x1680

/-- JavaScript `String.prototype.trim`: strip leading and trailing
whitespace characters. -/
def jsTrim (s : String) : String :=
  String.mk (((s.toList.dropWhile jsWhitespaceChar).reverse.dropWhile
      jsWhitespaceChar).reverse)

/-! ## Data model (in-memory entities of the main variant) -/

/-- An entry of `memoryHistory` (main variant, `POST /api/history`
memory branch, lines 164-173). -/
structure HistoryItem where
  id : String
  url : Option String
  method : Option String
  headers : Option JsonVal
  body : Option JsonVal
  params : Option JsonVal
  user_id : String
  created_at : String

/-- An entry of `memoryCollections` (main variant, lines 263-269). -/
structure Collection where
  id : String
  name : String
  description : Option String
  user_id : String
  created_at : String
deriving DecidableEq

/-- An entry of `memoryCollectionRequests` (main variant,
lines 356-366). -/
structure CollectionRequest where
  id : String
  collection_id : String
  url : Option String
  method : Option String
  headers : Option JsonVal
  body : Option JsonVal
  params : Option JsonVal
  name : String
  created_at : String

/-- The three in-memory arrays of the main variant
(`memoryHistory`, `memoryCollections`, `memoryCollectionRequests`,
lines 29-31). -/
structure ServerState where
  memoryHistory : List HistoryItem
  memoryCollections : List Collection
  memoryCollectionRequests : List CollectionRequest

def ServerState.empty : ServerState := ⟨[], [], []⟩

/-! ## History endpoints (memory branches) -/

/-- The caller-supplied fields of a `POST /api/history` body, plus the
environment-generated id (`Date.now().toString()`) and timestamp
(`new Date().toISOString()`). -/
structure SaveSpec where
  url : Option String
  method : Option String
  headers : Option JsonVal
  body : Option JsonVal
  params : Option JsonVal
  user_id : Option String
  genId : String
  ts : String

/-- The history item built by the memory branch of `POST /api/history`
(main variant, lines 164-173). -/
def buildHistoryItem (sp : SaveSpec) : HistoryItem :=
  { id := sp.genId
    url := sp.url
    method := sp.method
    headers := sp.headers
    body := sp.body
    params := sp.params
    user_id := jsOrStr sp.user_id "anonymous"
    created_at := sp.ts }

/-- Memory branch of `POST /api/history` (main variant, lines 175-176):
`memoryHistory.unshift(historyItem); memoryHistory =
memoryHistory.slice(0, 100)`. Returns the created item and the new
history list. -/
def saveHistory (hist : List HistoryItem) (sp : SaveSpec) :
    HistoryItem × List HistoryItem :=
  let item := buildHistoryItem sp
  (item, (item :: hist).take 100)

/-- The history list after a sequence of `POST /api/history` calls. -/
def histAfter (hist : List HistoryItem) (saves : List SaveSpec) :
    List HistoryItem :=
  saves.foldl (fun h sp => (saveHistory h sp).2) hist

/-- `JavaScript `Array.prototype.slice(0, e)` where `e` may be
negative (counts from the end) or non-negative (a take). -/
def jsSlice0 {α : Type} (l : List α) (e : Int) : List α :=
  if e < 0 then l.take (l.length - e.natAbs) else l.take e.toNat

/-- Effective limit of `GET /api/history`:
`const limit = parseInt(req.query.limit) || 50` (line 190).
`limitParsed` is the result of `parseInt` (`none` models an absent or
non-numeric `limit` query parameter, i.e. `NaN`); `|| 50` also maps a
parsed `0` to 50. -/
def effLimit (limitParsed : Option Int) : Int :=
  match limitParsed with
  | none => 50
  | some n => if n = 0 then 50 else n

/-- Memory branch of `GET /api/history` (main variant, lines 186-209):
filter by `user_id` (defaulting to `"anonymous"`), then
`.slice(0, limit)`. -/
def listHistory (hist : List HistoryItem) (user_id : Option String)
    (limitParsed : Option Int) : List HistoryItem :=
  let userId := jsOrStr user_id "anonymous"
  jsSlice0 (hist.filter fun item => item.user_id = userId)
    (effLimit limitParsed)

/-! ## Collections endpoints (memory branches, main variant) -/

/-- `POST /api/collections` (main variant, lines 242-278), memory
branch.  Validation (lines 246-248): `if (!name || !name.trim())`
return a 400 error; otherwise unshift a new collection.  Returns the
handler outcome (the created collection, or the error message of the
400 response) together with the resulting state. -/
def insertCollection (s : ServerState) (name description user_id :
    Option String) (genId ts : String) :
    Except String Collection × ServerState :=
  if ¬ strTruthy name ∨ jsTrim (jsToStr name) = "" then
    (Except.error "Collection name is required", s)
  else
    let collection : Collection :=
      { id := genId
        name := jsToStr name
        description := description
        user_id := jsOrStr user_id "anonymous"
        created_at := ts }
    (Except.ok collection,
      { s with memoryCollections := collection :: s.memoryCollections })

/-- `GET /api/collections` (main variant, lines 294-297), memory
branch: filter by `user_id` (defaulting to `"anonymous"`). -/
def listCollections (s : ServerState) (user_id : Option String) :
    List Collection :=
  let userId := jsOrStr user_id "anonymous"
  s.memoryCollections.filter fun item => item.user_id = userId

/-- `DELETE /api/collections/:id` (main variant, lines 319-327), memory
branch: remove the collection matching both `id` and the caller's
`user_id`, then remove every collection request whose `collection_id`
matches `id` (unconditionally). -/
def deleteCollection (s : ServerState) (id : String)
    (user_id : Option String) : ServerState :=
  let uid := jsOrStr user_id "anonymous"
  { s with
    memoryCollections := s.memoryCollections.filter fun item =>
      ¬ (item.id = id ∧ item.user_id = uid)
    memoryCollectionRequests := s.memoryCollectionRequests.filter
      fun r => r.collection_id ≠ id }

/-- The caller-supplied fields of a `POST /api/collections/:id/requests`
body, plus the environment-generated id and timestamp, and
`urlPathname`, the result of `new URL(url).pathname` (`none` models
`new URL(url)` throwing on a missing or malformed `url`; it is only
evaluated when the `name` field is falsy). -/
structure ReqSpec where
  url : Option String
  method : Option String
  headers : Option JsonVal
  body : Option JsonVal
  params : Option JsonVal
  name : Option String
  urlPathname : Option String
  genId : String
  ts : String

/-- The collection request built by the memory branch of
`POST /api/collections/:id/requests` (main variant, lines 356-366),
assuming the `name` default did not throw.  `nameVal` is the resolved
name. -/
def buildCollectionRequest (cid : String) (sp : ReqSpec)
    (nameVal : String) : CollectionRequest :=
  { id := sp.genId
    collection_id := cid
    url := sp.url
    method := sp.method
    headers := sp.headers
    body := sp.body
    params := sp.params
    name := nameVal
    created_at := sp.ts }

/-- `POST /api/collections/:id/requests` (main variant, lines 334-375),
memory branch.  No existence check on the collection id: the request is
built (``name: name || `${method} ${new URL(url).pathname}` ``, line
364) and unshifted onto `memoryCollectionRequests` (line 368).  When
`name` is falsy and `new URL(url)` throws, the `catch` at line 371
yields a 500 error and the state is unchanged. -/
def addCollectionRequest (s : ServerState) (id : String) (sp : ReqSpec) :
    Except String CollectionRequest × ServerState :=
  let nameVal : Except String String :=
    if strTruthy sp.name then Except.ok (jsToStr sp.name)
    else
      match sp.urlPathname with
      | some p => Except.ok (jsToStr sp.method ++ " " ++ p)
      | none => Except.error "Invalid URL"
  match nameVal with
  | Except.error e => (Except.error e, s)
  | Except.ok n =>
      let request := buildCollectionRequest id sp n
      (Except.ok request,
        { s with memoryCollectionRequests :=
            request :: s.memoryCollectionRequests })

/-- `GET /api/collections/:id/requests` (main variant, lines 391-393),
memory branch: filter `memoryCollectionRequests` by `collection_id`; no
reordering is applied. -/
def listCollectionRequests (s : ServerState) (id : String) :
    List CollectionRequest :=
  s.memoryCollectionRequests.filter fun item => item.collection_id = id

/-- The state resulting from a sequence of
`POST /api/collections/:id/requests` calls against the same collection
id. -/
def addRequests (s : ServerState) (id : String) (sps : List ReqSpec) :
    ServerState :=
  sps.foldl (fun st sp => (addCollectionRequest st id sp).2) s

/-- The counts reported by `DELETE /api/clear` (lines 508-512). -/
structure ClearCounts where
  historyCount : Nat
  collectionsCount : Nat
deriving DecidableEq

/-- `DELETE /api/clear` (main variant, lines 489-516).  With a truthy
`user_id` query parameter: filter `memoryHistory` and
`memoryCollections` by ownership, then filter
`memoryCollectionRequests` by looking up each request's parent in the
*already filtered* `memoryCollections` (lines 497-500).  Otherwise all
three arrays are reset. -/
def clearAll (s : ServerState) (user_id : Option String) :
    ServerState × ClearCounts :=
  let s' : ServerState :=
    if strTruthy user_id then
      let uid := jsToStr user_id
      let hist := s.memoryHistory.filter fun item => item.user_id ≠ uid
      let cols := s.memoryCollections.filter fun item => item.user_id ≠ uid
      let reqs := s.memoryCollectionRequests.filter fun item =>
        match cols.find? (fun c => c.id = item.collection_id) with
        | none => true
        | some collection => collection.user_id ≠ uid
      ⟨hist, cols, reqs⟩
    else
      ⟨[], [], []⟩
  (s', ⟨s'.memoryHistory.length, s'.memoryCollections.length⟩)

/-- Per-user counts of `GET /api/stats` (main variant, lines 549-553,
memory mode with a `user_id`): history and collections are filtered by
user, but `requestsCount` is the global length of
`memoryCollectionRequests`. -/
def statsFor (s : ServerState) (user_id : String) : Nat × Nat × Nat :=
  ((s.memoryHistory.filter fun h => h.user_id = user_id).length,
   (s.memoryCollections.filter fun c => c.user_id = user_id).length,
   s.memoryCollectionRequests.length)

/-! ## Simplified variant (lines 587-841)

The simplified variant keeps collection requests nested inside each
collection object (`memoryCollections[i].requests`); a request carries
no `collection_id`.  A collection's `requests` field is created on
first use; we model the absent field as the empty list, which is
observationally equivalent for the embedded operations. -/

/-- A request as stored by the simplified variant
(lines 794-803). -/
structure SimpleRequest where
  id : String
  url : Option String
  method : Option String
  headers : Option JsonVal
  body : Option JsonVal
  params : Option JsonVal
  name : String
  created_at : String

/-- An entry of the simplified variant's `memoryCollections`
(lines 749-755), with the dynamically-added `requests` array. -/
structure SimpleCollection where
  id : String
  name : String
  description : String
  user_id : String
  created_at : String
  requests : List SimpleRequest

/-- The simplified variant's state (lines 598-599). -/
structure SimpleState where
  memoryHistory : List HistoryItem
  memoryCollections : List SimpleCollection

/-- Unshift a request into the first collection whose id matches
(the mutation at lines 806-809, at the index found by `findIndex`). -/
def addReqToFirst (l : List SimpleCollection) (id : String)
    (r : SimpleRequest) : List SimpleCollection :=
  match l with
  | [] => []
  | c :: cs =>
      if c.id = id then { c with requests := r :: c.requests } :: cs
      else c :: addReqToFirst cs id r

/-- `POST /api/collections/:id/requests` (simplified variant, lines
782-816).  `findIndex` on `memoryCollections` (line 789); if no
collection has the given id, respond 404 "Collection not found" and
leave the state unchanged.  Otherwise build the request
(``name: name || `${method} ${url}` ``, line 801) and unshift it into
that collection's `requests`. -/
def addCollectionRequestSimple (s : SimpleState) (id : String)
    (url method name : Option String)
    (headers body params : Option JsonVal) (genId ts : String) :
    Except String SimpleRequest × SimpleState :=
  if s.memoryCollections.all (fun c => c.id ≠ id) then
    (Except.error "Collection not found", s)
  else
    let request : SimpleRequest :=
      { id := genId
        url := url
        method := method
        headers := headers
        body := body
        params := params
        name := if strTruthy name then jsToStr name
                else jsToStr method ++ " " ++ jsToStr url
        created_at := ts }
    (Except.ok request,
      { s with memoryCollections :=
          addReqToFirst s.memoryCollections id request })

/-- Total number of stored requests across all collections of the
simplified variant. -/
def SimpleState.totalRequests (s : SimpleState) : Nat :=
  (s.memoryCollections.map fun c => c.requests.length).sum

/-! ## Proxy endpoint (`POST /api/proxy`, main variant lines 56-139) -/

/-- UTF-8 bytes of a character (for percent-encoding). -/
def utf8Bytes (c : Char) : List Nat :=
  let n := c.toNat
  if n < 0x80 then [n]
  else if n < 0x800 then [0xC0 + n / 64, 0x80 + n % 64]
  else if n < 0x10000 then
    [0xE0 + n / 4096, 0x80 + (n / 64) % 64, 0x80 + n % 64]
  else
    [0xF0 + n / 262144, 0x80 + (n / 4096) % 64, 0x80 + (n / 64) % 64,
     0x80 + n % 64]

def hexDigit (n : Nat) : Char :=
  if n < 10 then Char.ofNat ('0'.toNat + n) else Char.ofNat ('A'.toNat + n - 10)

/-- `application/x-www-form-urlencoded` serialization of one string, as
performed by `URLSearchParams.toString()`: ASCII alphanumerics and
`*-._` are kept, space becomes `+`, every other character is
percent-encoded per UTF-8 byte. -/
def formUrlEncode (s : String) : String :=
  String.mk (s.toList.flatMap fun c =>
    if c.isAlphanum ∨ c = '*' ∨ c = '-' ∨ c = '.' ∨ c = '_' then [c]
    else if c = ' ' then ['+']
    else (utf8Bytes c).flatMap fun b => ['%', hexDigit (b / 16), hexDigit (b % 16)])

/-- The query-parameter pairs actually appended by the loop at lines
77-79: `if (key && value) urlParams.append(key, value)` skips every
entry whose key or value is the empty string. -/
def keptParams (params : List (String × String)) : List (String × String) :=
  params.filter fun p => p.1 ≠ "" ∧ p.2 ≠ ""

/-- `urlParams.toString()` for the appended pairs. -/
def buildQueryString (params : List (String × String)) : String :=
  String.intercalate "&" ((keptParams params).map fun p =>
    formUrlEncode p.1 ++ "=" ++ formUrlEncode p.2)

/-- URL construction at lines 74-81: when `params` is present and the
object is non-empty, append `?` plus the serialized query string
(entries are in object iteration order, modelled as list order). -/
def buildFinalUrl (url : String) (params : Option (List (String × String))) :
    String :=
  match params with
  | none => url
  | some ps => if ps.length > 0 then url ++ "?" ++ buildQueryString ps else url

/-- The `fetchOptions` object (lines 83-95). -/
structure FetchOptions where
  method : String
  headers : List (String × String)
  redirect : String
  timeout : Nat
  body : Option String

/-- JS object-key assignment: replace the value at an existing key,
else append. -/
def objSet (l : List (String × String)) (k v : String) :
    List (String × String) :=
  if l.any (fun p => p.1 = k) then
    l.map fun p => if p.1 = k then (k, v) else p
  else l ++ [(k, v)]

/-- The spread `{ 'Content-Type': 'application/json', ...headers }`
(lines 85-88): caller headers override the default on key collision. -/
def mergeHeaders (callerHeaders : List (String × String)) :
    List (String × String) :=
  callerHeaders.foldl (fun acc p => objSet acc p.1 p.2)
    [("Content-Type", "application/json")]

/-- `fetchOptions` construction, lines 83-95.  Note that the body guard
at line 93 (`method !== 'GET' && method !== 'HEAD' && body`) tests the
*raw* `method` value, while `fetchOptions.method` got the defaulted
`method || 'GET'` at line 84. -/
def buildFetchOptions (method : Option String)
    (headers : List (String × String)) (body : Option JsonVal) :
    FetchOptions :=
  { method := jsOrStr method "GET"
    headers := mergeHeaders headers
    redirect := "follow"
    timeout := 30000
    body :=
      match body with
      | some v =>
          if method ≠ some "GET" ∧ method ≠ some "HEAD" ∧ jsTruthy v then
            some (stringify v)
          else none
      | none => none }

/-- The observable parts of the `fetch` response: status line, headers
(keys lower-cased by the transport), the outcome of `response.json()`
(`none` models a JSON parse failure) and of `response.text()`. -/
structure FetchResponse where
  status : Nat
  statusText : String
  headers : List (String × String)
  jsonParse : Option JsonVal
  text : String

def headersGet (hs : List (String × String)) (k : String) : Option String :=
  (hs.find? fun p => p.1 = k).map fun p => p.2

/-- `String.prototype.includes` for a non-empty pattern. -/
def containsSubstr (s pat : String) : Bool :=
  (s.splitOn pat).length > 1

/-- Response-body decoding, lines 107-117: when the `content-type`
header is present, truthy, and includes `application/json`, try the
JSON parse and fall back to text; otherwise return the text. -/
def decodeBody (resp : FetchResponse) : JsonVal :=
  match headersGet resp.headers "content-type" with
  | none => JsonVal.str resp.text
  | some ct =>
      if ct ≠ "" ∧ containsSubstr ct "application/json" then
        match resp.jsonParse with
        | some v => v
        | none => JsonVal.str resp.text
      else JsonVal.str resp.text

/-- The success envelope `responseData` (lines 119-126).  `size` is the
length of `JSON.stringify(responseBody)` (code-unit length in JS,
modelled as the character count of our serialization). -/
structure Envelope where
  status : Nat
  statusText : String
  headers : List (String × String)
  body : JsonVal
  time : Nat
  size : Nat

/-- The payload of the catch branch (lines 130-138):
`{ error, time: 0, size: 0, status: 500 }`, sent with HTTP status
500. -/
structure FailurePayload where
  error : String
  time : Nat
  size : Nat
  status : Nat
deriving DecidableEq

/-- Outcome of the `POST /api/proxy` handler: a 400 validation
rejection, a relayed envelope (HTTP 200), or the catch branch
(HTTP 500).  The handler is a total function: the `try`/`catch` at
lines 57/130 means no exception escapes it. -/
inductive ProxyResult where
  | badRequest (error : String)
  | ok (env : Envelope)
  | failed (payload : FailurePayload)

/-- The HTTP status code the handler responds with. -/
def ProxyResult.httpStatus : ProxyResult → Nat
  | .badRequest _ => 400
  | .ok _ => 200
  | .failed _ => 500

/-- `POST /api/proxy` (main variant, lines 56-139).  `urlValid` models
whether `new URL(url)` succeeds (line 66); `outcome` models the result
of `fetch` (`Except.error e` is a rejected promise with message `e`);
`elapsed` models `endTime - startTime`. -/
def proxyHandler (url : Option String) (urlValid : Bool)
    (method : Option String) (headers : List (String × String))
    (body : Option JsonVal) (params : Option (List (String × String)))
    (outcome : Except String FetchResponse) (elapsed : Nat) :
    ProxyResult :=
  if ¬ strTruthy url then ProxyResult.badRequest "URL is required"
  else if ¬ urlValid then ProxyResult.badRequest "Invalid URL format"
  else
    match outcome with
    | Except.error e => ProxyResult.failed ⟨e, 0, 0, 500⟩
    | Except.ok resp =>
        let responseBody := decodeBody resp
        ProxyResult.ok
          { status := resp.status
            statusText := resp.statusText
            headers := resp.headers
            body := responseBody
            time := elapsed
            size := (stringify responseBody).length }

/-! ## Concrete inputs used by witnesses and counterexamples -/

/-- 101 history save requests from one user. -/
def saveList101 : List SaveSpec :=
  (List.range 101).map fun i =>
    { url := none, method := none, headers := none, body := none,
      params := none, user_id := some "u", genId := toString i, ts := "t" }

/-- A single stored history item of user `u1`. -/
def histItemW : HistoryItem :=
  { id := "1", url := none, method := none, headers := none, body := none,
    params := none, user_id := "u1", created_at := "t" }

/-- A single history save request from user `u1`. -/
def saveW : SaveSpec :=
  { url := some "https://a.example/x", method := some "POST", headers := none,
    body := none, params := none, user_id := some "u1", genId := "1",
    ts := "t" }

/-- A collection-request payload named `r1`. -/
def reqSpecW1 : ReqSpec :=
  { url := some "https://a.example/one", method := some "GET",
    headers := none, body := none, params := none, name := some "r1",
    urlPathname := none, genId := "1", ts := "t1" }

/-- A collection-request payload named `r2`. -/
def reqSpecW2 : ReqSpec :=
  { url := some "https://a.example/two", method := some "GET",
    headers := none, body := none, params := none, name := some "r2",
    urlPathname := none, genId := "2", ts := "t2" }

/-- A stored collection request under collection `c1`. -/
def reqW : CollectionRequest :=
  { id := "r1", collection_id := "c1", url := none, method := none,
    headers := none, body := none, params := none, name := "GET /",
    created_at := "t" }

/-- One collection owned by `u1` with one stored request. -/
def clearStateW : ServerState :=
  { memoryHistory := [],
    memoryCollections := [⟨"c1", "mine", none, "u1", "t"⟩],
    memoryCollectionRequests := [reqW] }

/-- One collection owned by `u2` (a *different* user) with one stored
request. -/
def delStateW : ServerState :=
  { memoryHistory := [],
    memoryCollections := [⟨"c1", "theirs", none, "u2", "t"⟩],
    memoryCollectionRequests := [reqW] }

/-- A simplified-variant state holding a single collection `c1`. -/
def simpleStateW : SimpleState :=
  { memoryHistory := [],
    memoryCollections := [⟨"c1", "n", "", "u1", "t", []⟩] }

/-! # Theorems

General lemmas about the truncated history list, then one theorem per
claim (with its witness or counterexample). -/

theorem take_append_take {α : Type} (a l : List α) (n : Nat) :
    (a ++ l.take n).take n = (a ++ l).take n := by
  rw [List.take_append_eq_append_take, List.take_append_eq_append_take,
    List.take_take, Nat.min_eq_left (Nat.sub_le n a.length)]

theorem histAfter_cons (h : List HistoryItem) (sp : SaveSpec)
    (sps : List SaveSpec) :
    histAfter h (sp :: sps) =
      histAfter ((buildHistoryItem sp :: h).take 100) sps := rfl

theorem histAfter_closed (sps : List SaveSpec) :
    ∀ h : List HistoryItem, sps ≠ [] →
      histAfter h sps = ((sps.map buildHistoryItem).reverse ++ h).take 100 := by
  induction sps with
  | nil => intro h hne; exact absurd rfl hne
  | cons sp sps ih =>
    intro h _
    by_cases hs : sps = []
    · subst hs; rfl
    · rw [histAfter_cons, ih _ hs, take_append_take]
      simp [List.reverse_cons, List.append_assoc]

theorem histAfter_nil_start (sps : List SaveSpec) :
    histAfter [] sps = ((sps.map buildHistoryItem).reverse).take 100 := by
  cases sps with
  | nil => rfl
  | cons sp sps =>
    rw [histAfter_closed _ _ (by simp), List.append_nil]

theorem head_take100 {α : Type} (l : List α) :
    (l.take 100).head? = l.head? := by
  cases l with
  | nil => rfl
  | cons x t => rfl

theorem headq_append_left {α : Type} (a b : List α) (h : a ≠ []) :
    (a ++ b).head? = a.head? := by
  cases a with
  | nil => exact absurd rfl h
  | cons x t => rfl

theorem getLastq_map {α β : Type} (f : α → β) (l : List α) :
    (l.map f).getLast? = (l.getLast?).map f := by
  rw [← List.head?_reverse, ← List.map_reverse, List.head?_map,
    List.head?_reverse]

/-- C4: in ephemeral mode, after any sequence of more than 100
`SaveHistory` calls (memory branch of `POST /api/history`, lines
175-176), at most 100 history items are retained globally, and the most
recently inserted item is at the head of the list (hence present, and
returned first for its user). -/
theorem c4_history_cap (hist : List HistoryItem) (saves : List SaveSpec)
    (hlen : 100 < saves.length) :
    (histAfter hist saves).length ≤ 100 ∧
    (histAfter hist saves).head? = saves.getLast?.map buildHistoryItem := by
  have hne : saves ≠ [] := by
    intro h; subst h; simp at hlen
  rw [histAfter_closed saves hist hne]
  constructor
  · exact List.length_take_le 100 _
  · rw [head_take100,
      headq_append_left _ _ (by simp [hne]),
      List.head?_reverse, getLastq_map]

/-- C4 witness: 101 concrete saves. -/
theorem c4_history_cap_witness :
    100 < saveList101.length ∧
    ((histAfter [] saveList101).length ≤ 100 ∧
     (histAfter [] saveList101).head? =
       saveList101.getLast?.map buildHistoryItem) :=
  ⟨by decide, c4_history_cap [] saveList101 (by decide)⟩

theorem jsSlice0_nonneg {α : Type} (l : List α) (e : Int) (he : 0 ≤ e) :
    jsSlice0 l e = l.take e.toNat := by
  unfold jsSlice0
  rw [if_neg (by omega)]

/-- C9 counterexample: the claim says `ListHistory(userId, limit)`
returns at most `limit` items for every non-negative `limit`, the
default 50 applying only when the limit is absent.  But
`parseInt(req.query.limit) || 50` (line 190) also replaces a parsed `0`
by 50: with one stored item of `u1` and `limit=0`, the handler returns
that item (1 item > 0). -/
theorem c9_counterexample :
    listHistory [histItemW] (some "u1") (some 0) = [histItemW] ∧
    ¬ ((listHistory [histItemW] (some "u1") (some 0)).length ≤ 0) :=
  ⟨rfl, by decide⟩

/-- C9 amended: `ListHistory(userId, limit)` (memory branch of
`GET /api/history`, lines 186-209) returns only items whose `user_id`
equals the given user (defaulting to `"anonymous"`), newest first
(the store built by inserts is the reverse of insertion order), with at
most `effLimit limitParsed` items — where the limit defaults to 50 not
only when absent but also when it parses to `NaN` or `0`. -/
theorem c9_list_history (saves : List SaveSpec) (user_id : Option String)
    (limitParsed : Option Int) (hsv : saves.length ≤ 100)
    (hpos : 0 ≤ effLimit limitParsed) :
    (∀ x ∈ listHistory (histAfter [] saves) user_id limitParsed,
        x.user_id = jsOrStr user_id "anonymous") ∧
    (listHistory (histAfter [] saves) user_id limitParsed).length ≤
        (effLimit limitParsed).toNat ∧
    listHistory (histAfter [] saves) user_id limitParsed =
      ((saves.map buildHistoryItem).reverse.filter
          (fun x => x.user_id = jsOrStr user_id "anonymous")).take
        (effLimit limitParsed).toNat := by
  have hstate : histAfter [] saves = (saves.map buildHistoryItem).reverse := by
    rw [histAfter_nil_start]
    exact List.take_of_length_le (by simpa using hsv)
  simp only [listHistory]
  rw [hstate, jsSlice0_nonneg _ _ hpos]
  refine ⟨?_, ?_, rfl⟩
  · intro x hx
    have hx' := List.mem_filter.mp (List.mem_of_mem_take hx)
    simpa using hx'.2
  · exact List.length_take_le _ _

/-- C9 witness: one save by `u1`, listed with `limit=10`. -/
theorem c9_list_history_witness :
    ([saveW].length ≤ 100 ∧ 0 ≤ effLimit (some 10)) ∧
    ((∀ x ∈ listHistory (histAfter [] [saveW]) (some "u1") (some 10),
        x.user_id = jsOrStr (some "u1") "anonymous") ∧
     (listHistory (histAfter [] [saveW]) (some "u1") (some 10)).length ≤
        (effLimit (some 10)).toNat ∧
     listHistory (histAfter [] [saveW]) (some "u1") (some 10) =
       (([saveW].map buildHistoryItem).reverse.filter
           (fun x => x.user_id = jsOrStr (some "u1") "anonymous")).take
         (effLimit (some 10)).toNat) :=
  ⟨⟨by decide, by decide⟩,
   c9_list_history [saveW] (some "u1") (some 10) (by decide) (by decide)⟩

/-- C1 counterexample: the claim says `AddCollectionRequest` with an
unresolved collection id fails with `NotFound` and leaves the stored
request count unchanged.  The memory branch of the *main* variant
(lines 355-369) performs no existence check: against the empty store
(no collection resolves `"missing-id"`), the call succeeds and the
global request count grows from 0 to 1. -/
theorem c1_counterexample :
    ServerState.empty.memoryCollections = [] ∧
    (addCollectionRequest ServerState.empty "missing-id" reqSpecW1).1 =
      Except.ok (buildCollectionRequest "missing-id" reqSpecW1 "r1") ∧
    (addCollectionRequest ServerState.empty "missing-id"
        reqSpecW1).2.memoryCollectionRequests.length = 1 :=
  ⟨rfl, rfl, rfl⟩

/-- C1 amended: in the *simplified* variant
(`POST /api/collections/:id/requests`, lines 782-816) the claim holds:
when no stored collection has the given id, the handler responds 404
`"Collection not found"`, the state is unchanged and so is the global
count of stored requests.  The main variant's memory branch instead
inserts the request without any existence check (see the
counterexample). -/
theorem c1_add_request_not_found (s : SimpleState) (id : String)
    (url method name : Option String)
    (headers body params : Option JsonVal) (genId ts : String)
    (h : ∀ c ∈ s.memoryCollections, c.id ≠ id) :
    (addCollectionRequestSimple s id url method name headers body params
        genId ts).1 = Except.error "Collection not found" ∧
    (addCollectionRequestSimple s id url method name headers body params
        genId ts).2 = s ∧
    (addCollectionRequestSimple s id url method name headers body params
        genId ts).2.totalRequests = s.totalRequests := by
  have hall : s.memoryCollections.all (fun c => c.id ≠ id) = true := by
    rw [List.all_eq_true]
    intro c hc
    simpa using h c hc
  refine ⟨?_, ?_, ?_⟩ <;> simp only [addCollectionRequestSimple] <;>
    rw [if_pos hall]

/-- C1 witness: a store holding only collection `c1`, targeted with
`"missing-id"`. -/
theorem c1_add_request_not_found_witness :
    (∀ c ∈ simpleStateW.memoryCollections, c.id ≠ "missing-id") ∧
    ((addCollectionRequestSimple simpleStateW "missing-id"
        (some "https://x") (some "GET") (some "r") none none none "9"
        "t").1 = Except.error "Collection not found" ∧
     (addCollectionRequestSimple simpleStateW "missing-id"
        (some "https://x") (some "GET") (some "r") none none none "9"
        "t").2 = simpleStateW ∧
     (addCollectionRequestSimple simpleStateW "missing-id"
        (some "https://x") (some "GET") (some "r") none none none "9"
        "t").2.totalRequests = simpleStateW.totalRequests) :=
  ⟨by decide,
   c1_add_request_not_found simpleStateW "missing-id" (some "https://x")
     (some "GET") (some "r") none none none "9" "t" (by decide)⟩

/-- C2 counterexample: the claim says `ListCollectionRequests` returns
a collection's requests oldest-first.  In the memory branch requests
are unshifted (line 368) and listed without reordering (lines 391-393):
after inserting `r1` then `r2`, the listing is `[r2, r1]`
(newest first), not the claimed `[r1, r2]`. -/
theorem c2_counterexample :
    listCollectionRequests
        (addRequests ServerState.empty "c1" [reqSpecW1, reqSpecW2]) "c1" =
      [buildCollectionRequest "c1" reqSpecW2 "r2",
       buildCollectionRequest "c1" reqSpecW1 "r1"] ∧
    [buildCollectionRequest "c1" reqSpecW2 "r2",
       buildCollectionRequest "c1" reqSpecW1 "r1"] ≠
      [buildCollectionRequest "c1" reqSpecW1 "r1",
       buildCollectionRequest "c1" reqSpecW2 "r2"] := by
  refine ⟨rfl, fun h => ?_⟩
  injection h with h1 _
  exact absurd (congrArg CollectionRequest.id h1) (by decide)

/-- C2 amended: in ephemeral mode, `ListCollectionRequests` returns the
collection's requests *newest first* — each sequence of inserts shows
up in reverse insertion order, ahead of the previously stored
requests.  (The durable branch, lines 382-386, instead orders
ascending by `created_at`; it lives in the external datastore and is
out of scope of the in-memory model.) -/
theorem c2_requests_order (s : ServerState) (id : String)
    (sps : List ReqSpec) (h : ∀ sp ∈ sps, strTruthy sp.name = true) :
    listCollectionRequests (addRequests s id sps) id =
      (sps.map (fun sp =>
          buildCollectionRequest id sp (jsToStr sp.name))).reverse ++
        listCollectionRequests s id := by
  induction sps generalizing s with
  | nil => simp [addRequests]
  | cons sp sps ih =>
    have hsp : strTruthy sp.name = true := h sp (by simp)
    have hstep : (addCollectionRequest s id sp).2 =
        { s with memoryCollectionRequests :=
            buildCollectionRequest id sp (jsToStr sp.name) ::
              s.memoryCollectionRequests } := by
      simp only [addCollectionRequest, hsp, if_true]
    have hlist : listCollectionRequests (addCollectionRequest s id sp).2 id =
        buildCollectionRequest id sp (jsToStr sp.name) ::
          listCollectionRequests s id := by
      rw [hstep]
      simp [listCollectionRequests, buildCollectionRequest]
    have hfold : addRequests s id (sp :: sps) =
        addRequests (addCollectionRequest s id sp).2 id sps := rfl
    rw [hfold, ih _ (fun q hq => h q (by simp [hq])), hlist]
    simp [List.reverse_cons, List.append_assoc]

/-- C2 witness: two concrete inserts into an empty store. -/
theorem c2_requests_order_witness :
    (∀ sp ∈ [reqSpecW1, reqSpecW2], strTruthy sp.name = true) ∧
    listCollectionRequests
        (addRequests ServerState.empty "c1" [reqSpecW1, reqSpecW2]) "c1" =
      ([reqSpecW1, reqSpecW2].map (fun sp =>
          buildCollectionRequest "c1" sp (jsToStr sp.name))).reverse ++
        listCollectionRequests ServerState.empty "c1" :=
  ⟨by decide,
   c2_requests_order ServerState.empty "c1" [reqSpecW1, reqSpecW2]
     (by decide)⟩

/-- C3: the claim says `ClearAll(userId)` also removes every
`CollectionRequest` whose parent collection belonged to that user.  In
`DELETE /api/clear` (lines 489-516) `memoryCollections` is filtered
*before* the requests pass runs, so the parent lookup at line 498 never
finds a collection of the cleared user: the ownership test at line 499
is dead and no request is ever removed.  Concretely: user `u1` owns
collection `c1` holding request `r1`; clearing `u1` empties the history
and collections but leaves `r1` stored (now orphaned). -/
theorem c3_clear_keeps_requests :
    (clearAll clearStateW (some "u1")).1.memoryHistory = [] ∧
    (clearAll clearStateW (some "u1")).1.memoryCollections = [] ∧
    (clearAll clearStateW (some "u1")).1.memoryCollectionRequests = [reqW] :=
  ⟨rfl, rfl, rfl⟩

/-- C10: in ephemeral mode, `DELETE /api/collections/:id`
(lines 319-327) removes every stored request whose `collection_id`
matches the path id (first two conjuncts: exactly those are removed),
while the collection itself is only removed when it also matches the
caller's `user_id` — so a collection owned by a different user
survives even as its requests are cascaded away (third conjunct). -/
theorem c10_delete_cascade (s : ServerState) (id : String)
    (user_id : Option String) :
    (∀ r ∈ s.memoryCollectionRequests, r.collection_id = id →
      r ∉ (deleteCollection s id user_id).memoryCollectionRequests) ∧
    (∀ r ∈ s.memoryCollectionRequests, r.collection_id ≠ id →
      r ∈ (deleteCollection s id user_id).memoryCollectionRequests) ∧
    (∀ c ∈ s.memoryCollections, c.id = id →
      c.user_id ≠ jsOrStr user_id "anonymous" →
      c ∈ (deleteCollection s id user_id).memoryCollections) := by
  refine ⟨?_, ?_, ?_⟩
  · intro r _ hid hmem
    have hkeep := (List.mem_filter.mp hmem).2
    exact (of_decide_eq_true hkeep) hid
  · intro r hr hne
    exact List.mem_filter.mpr ⟨hr, decide_eq_true hne⟩
  · intro c hc hid huid
    refine List.mem_filter.mpr ⟨hc, decide_eq_true ?_⟩
    intro hand
    exact huid hand.2

/-- C10 witness: collection `c1` is owned by `u2`; `u1` deletes id
`c1`: the stored request under `c1` is gone while the collection
itself survives. -/
theorem c10_delete_cascade_witness :
    reqW ∈ delStateW.memoryCollectionRequests ∧
    reqW.collection_id = "c1" ∧
    reqW ∉ (deleteCollection delStateW "c1"
        (some "u1")).memoryCollectionRequests ∧
    (⟨"c1", "theirs", none, "u2", "t"⟩ : Collection) ∈
      (deleteCollection delStateW "c1" (some "u1")).memoryCollections :=
  ⟨List.mem_cons_self _ _, rfl,
   (c10_delete_cascade delStateW "c1" (some "u1")).1 reqW
     (List.mem_cons_self _ _) rfl,
   (c10_delete_cascade delStateW "c1" (some "u1")).2.2
     ⟨"c1", "theirs", none, "u2", "t"⟩ (List.mem_cons_self _ _) rfl
     (by decide)⟩

theorem jsTrim_all_ws (t : String)
    (h : t.toList.all jsWhitespaceChar = true) : jsTrim t = "" := by
  unfold jsTrim
  have hd : t.toList.dropWhile jsWhitespaceChar = [] := by
    rw [List.dropWhile_eq_nil_iff]
    intro x hx
    exact List.all_eq_true.mp h x hx
  rw [hd]
  rfl

/-- C8: `CreateCollection` with an absent, empty or whitespace-only
name (`POST /api/collections`, validation at lines 246-248:
`if (!name || !name.trim())`) fails with the 400 validation error
`"Collection name is required"`, the state is unchanged, and
`ListCollections` returns the same result for every user. -/
theorem c8_collection_name_validation (s : ServerState)
    (name description user_id : Option String) (genId ts : String)
    (h : name = none ∨
      ∃ t, name = some t ∧ t.toList.all jsWhitespaceChar = true) :
    (insertCollection s name description user_id genId ts).1 =
      Except.error "Collection name is required" ∧
    (insertCollection s name description user_id genId ts).2 = s ∧
    ∀ u, listCollections
        (insertCollection s name description user_id genId ts).2 u =
      listCollections s u := by
  have hcond : ¬ strTruthy name = true ∨ jsTrim (jsToStr name) = "" := by
    rcases h with h | ⟨t, ht, hw⟩
    · subst h
      left
      simp [strTruthy]
    · subst ht
      by_cases he : t = ""
      · subst he
        left
        simp [strTruthy]
      · right
        simpa [jsToStr] using jsTrim_all_ws t hw
  simp only [insertCollection]
  rw [if_pos hcond]
  exact ⟨rfl, rfl, fun u => rfl⟩

/-- C8 witness: a whitespace-only name `" "` against a non-empty
store. -/
theorem c8_collection_name_validation_witness :
    ((some " " : Option String) = none ∨
      ∃ t, (some " " : Option String) = some t ∧
        t.toList.all jsWhitespaceChar = true) ∧
    ((insertCollection clearStateW (some " ") none none "9" "t").1 =
        Except.error "Collection name is required" ∧
     (insertCollection clearStateW (some " ") none none "9" "t").2 =
        clearStateW ∧
     ∀ u, listCollections
        (insertCollection clearStateW (some " ") none none "9" "t").2 u =
       listCollections clearStateW u) :=
  ⟨Or.inr ⟨" ", rfl, by decide⟩,
   c8_collection_name_validation clearStateW (some " ") none none "9" "t"
     (Or.inr ⟨" ", rfl, by decide⟩)⟩

/-- C5: for every relay call that fails at the network level (the
`fetch` promise rejects: DNS, connection refused, TLS failure,
timeout), the handler's `catch` (lines 130-138) responds with the
envelope `{ error, time: 0, size: 0, status: 500 }` — carrying the
underlying message, status 500 and zero timing/size — rather than
letting the failure escape: `proxyHandler` is a total function, so no
target-side failure throws past the boundary (malformed input is
rejected with a 400 *before* any network call). -/
theorem c5_network_failure (url : Option String) (urlValid : Bool)
    (method : Option String) (headers : List (String × String))
    (body : Option JsonVal) (params : Option (List (String × String)))
    (e : String) (elapsed : Nat) (hu : strTruthy url = true)
    (hv : urlValid = true) :
    proxyHandler url urlValid method headers body params
        (Except.error e) elapsed = ProxyResult.failed ⟨e, 0, 0, 500⟩ ∧
    (proxyHandler url urlValid method headers body params
        (Except.error e) elapsed).httpStatus = 500 := by
  have h : proxyHandler url urlValid method headers body params
      (Except.error e) elapsed = ProxyResult.failed ⟨e, 0, 0, 500⟩ := by
    simp [proxyHandler, hu, hv]
  exact ⟨h, by rw [h]; rfl⟩

/-- C5 witness: a valid target URL whose fetch is refused. -/
theorem c5_network_failure_witness :
    (strTruthy (some "https://a.example/x") = true ∧ true = true) ∧
    (proxyHandler (some "https://a.example/x") true (some "GET") [] none
        none (Except.error "connect ECONNREFUSED") 0 =
      ProxyResult.failed ⟨"connect ECONNREFUSED", 0, 0, 500⟩ ∧
     (proxyHandler (some "https://a.example/x") true (some "GET") [] none
        none (Except.error "connect ECONNREFUSED") 0).httpStatus = 500) :=
  ⟨⟨by decide, rfl⟩,
   c5_network_failure (some "https://a.example/x") true (some "GET") []
     none none "connect ECONNREFUSED" 0 (by decide) rfl⟩

/-- C6 counterexample: the claim says a body is attached only when the
method — *defaulting to "GET" when absent* — is neither GET nor HEAD.
With the method absent and a body supplied, the outbound method is the
defaulted `"GET"` (line 84) yet the guard at line 93 tests the raw
`method` (`undefined !== 'GET'` holds), so the body *is* attached. -/
theorem c6_counterexample :
    (buildFetchOptions none [] (some (JsonVal.str "x"))).method = "GET" ∧
    (buildFetchOptions none [] (some (JsonVal.str "x"))).body =
      some (stringify (JsonVal.str "x")) :=
  ⟨rfl, rfl⟩

/-- C6 amended: the relay attaches a body iff a truthy body was
supplied and the *caller-supplied* `method` field is literally neither
`"GET"` nor `"HEAD"` — the `"GET"` default of line 84 is applied to the
outbound method only, not to the body guard of line 93.  When attached,
the body is the JSON serialization of the supplied value. -/
theorem c6_body_guard (method : Option String)
    (headers : List (String × String)) (body : Option JsonVal) :
    ((buildFetchOptions method headers body).body.isSome = true ↔
      (method ≠ some "GET" ∧ method ≠ some "HEAD" ∧
        jsTruthyOpt body = true)) ∧
    (∀ v, body = some v → method ≠ some "GET" → method ≠ some "HEAD" →
      jsTruthy v = true →
      (buildFetchOptions method headers body).body = some (stringify v)) := by
  constructor
  · cases body with
    | none => simp [buildFetchOptions, jsTruthyOpt]
    | some v =>
      simp only [buildFetchOptions, jsTruthyOpt]
      split_ifs with hc
      · simpa using hc
      · simp only [Option.isSome_none, Bool.false_eq_true, false_iff]
        intro hand
        exact hc hand
  · intro v hv h1 h2 h3
    subst hv
    simp [buildFetchOptions, h1, h2, h3]

/-- C6 witness: a POST with a truthy body gets it attached,
serialized. -/
theorem c6_body_guard_witness :
    ((some "POST" : Option String) ≠ some "GET" ∧
     (some "POST" : Option String) ≠ some "HEAD" ∧
     jsTruthy (JsonVal.str "x") = true) ∧
    (buildFetchOptions (some "POST") [] (some (JsonVal.str "x"))).body =
      some (stringify (JsonVal.str "x")) :=
  ⟨⟨by decide, by decide, by decide⟩,
   (c6_body_guard (some "POST") [] (some (JsonVal.str "x"))).2
     (JsonVal.str "x") rfl (by decide) (by decide) (by decide)⟩

/-- C7: query-parameter handling (lines 73-81).  Every entry with an
empty key or empty value is skipped by the guard
`if (key && value)`; for a non-empty `params` object the kept entries
are appended to the URL as a query string; and concretely, for
`params = {"a":"1","b":""}` the `b` pair is omitted from the final
query string. -/
theorem c7_query_params (params : List (String × String)) :
    (∀ p ∈ params, (p.1 = "" ∨ p.2 = "") → p ∉ keptParams params) ∧
    (∀ url ps, ps ≠ (([] : List (String × String))) →
      buildFinalUrl url (some ps) = url ++ "?" ++ buildQueryString ps) ∧
    buildFinalUrl "https://api.example.com/items"
        (some [("a", "1"), ("b", "")]) =
      "https://api.example.com/items?a=1" := by
  refine ⟨?_, ?_, by decide⟩
  · intro p _ hbad hmem
    have hkeep := of_decide_eq_true (List.mem_filter.mp hmem).2
    rcases hbad with h | h
    · exact hkeep.1 h
    · exact hkeep.2 h
  · intro url ps hne
    simp only [buildFinalUrl]
    rw [if_pos (List.length_pos.mpr hne)]

/-- C7 witness: the empty-valued pair `("b","")` of the concrete params
object is not among the kept (encoded) pairs. -/
theorem c7_query_params_witness :
    ("b", "") ∈ [("a", "1"), ("b", "")] ∧
    ("b", "").2 = "" ∧
    ("b", "") ∉ keptParams [("a", "1"), ("b", "")] :=
  ⟨by decide, rfl,
   (c7_query_params [("a", "1"), ("b", "")]).1 ("b", "") (by decide)
     (Or.inr rfl)⟩
